import Mathlib

/-!
# tubes: the dispatch engine (`tube_system.go`) and the connector glue (`connector.go`)

A shallow embedding of `TubeSystem.Send`, `TubeSystem.IsSubscribed`,
`TubeSystem.messageHandler`, `TubeSystem.disconnectHandler`, `New`,
`Connector.Message`, `Connector.Leave` and `Connector.error`.

The channel store, the channel templates, their subscription contexts, the
client registry and the error constructors live in files that are not part of
the sources at hand.  The channel store is taken as a record of query
functions (`ChannelStore`); calls into it that mutate it or deliver a payload
are recorded, in program order, in a call trace.  A Go nil-pointer
dereference is the fault `Fault.nilDereference`.
-/

namespace Tubes

/-- A byte slice (`[]byte`, `json.RawMessage`). -/
abbrev Bytes := List Nat

/-! ## Errors -/

/-- Modelled from the spec: the closed error taxonomy of §7 (the declaration of the
kinds is not in the sources at hand). -/
inductive ErrorKind where
  | ErrorUnknownChannel
  | ErrorClientNotSubscribed
  | ErrorInvalidMessage
  | ErrorUnknownType
  | ErrorMulti
  deriving DecidableEq, Repr

/-- Modelled from the spec: an error value (§3) is tagged with a kind, carries a
description, an optional wrapped cause and nested child errors. -/
inductive Error where
  | mk (kind : ErrorKind) (description : String) (cause : Option String)
      (children : List Error)

/-- The kind tag of an error. -/
def Error.kind : Error → ErrorKind
  | .mk k _ _ _ => k

/-- The description of an error. -/
def Error.description : Error → String
  | .mk _ d _ _ => d

/-- The child errors of an error (empty unless it is an aggregate). -/
def Error.children : Error → List Error
  | .mk _ _ _ cs => cs

/-- Modelled from the spec: `NewError(ctx, kind, description, cause)` builds a single
error of the given kind, without children (the constructor is not in the sources
at hand; its first argument is `nil` at every call site). -/
def NewError (_ctx : Option String) (kind : ErrorKind) (description : String)
    (cause : Option String) : Error :=
  .mk kind description cause []

/-- Modelled from the spec: `NewMultiError(ctx, description, cause, errors)` builds the
aggregate error that wraps `errors` as its children (the constructor is not in
the sources at hand). -/
def NewMultiError (_ctx : Option String) (description : String) (cause : Option String)
    (errors : List Error) : Error :=
  .mk .ErrorMulti description cause errors

/-! ## The channel store, as seen by `TubeSystem` -/

/-- One element of the list returned by `ChannelStore.Get`: the matching channel. -/
structure Match (Chan : Type) where
  Channel : Chan

/-- The query side of the channel store and of its channels and contexts, whose
code is not in the sources at hand: taken as parameters.
* `Get channelPath` is `channels.Get(channelPath)`;
* `IsSubscribed ch clientId channelPath` is `ch.IsSubscribed(clientId, channelPath)`;
* `FindContext ch clientId channelPath` is `ch.FindContext(clientId, channelPath)`;
* `ContextSend ctx payload` is `ctx.Send(payload)`, `none` being a nil error. -/
structure ChannelStore (Chan Ctx : Type) where
  Get : String → List (Match Chan)
  IsSubscribed : Chan → String → String → Bool
  FindContext : Chan → String → String → Ctx × Bool
  ContextSend : Ctx → Bytes → Option Error

/-- A call made by `Send` on a channel or on a context. -/
inductive Call (Chan Ctx : Type) where
  | FindContext (ch : Chan) (clientId channelPath : String)
  | ContextSend (ctx : Ctx) (payload : Bytes)

/-- Whether a call is a delivery attempt (`context.Send`). -/
def Call.isContextSend {Chan Ctx : Type} : Call Chan Ctx → Bool
  | .ContextSend _ _ => true
  | .FindContext _ _ _ => false

/-! ## Clients, the client registry, the connector -/

/-- A connected client; of its fields the code at hand reads only `Id`. -/
structure Client where
  Id : String
  deriving DecidableEq, Repr

/-- The inbound envelope `Message` (`Type_` is the Go field `Type`). -/
structure Message where
  Type_ : String
  Channel : String
  Payload : Bytes
  deriving DecidableEq, Repr

/-- The envelope type `"subscribe"`. -/
def MessageTypeSubscribe : String := "subscribe"

/-- The envelope type `"unsubscribe"`. -/
def MessageTypeUnsubscribe : String := "unsubscribe"

/-- The envelope type `"message"`. -/
def MessageTypeChannelMessage : String := "message"

/-- Modelled from the spec: the Client Registry of §4.1 (`ClientStore`, not in the
sources at hand), the registered clients, looked up by identity. -/
structure ClientStore where
  clients : List Client

/-- Modelled from the spec: `Get(id)` returns the client or "not found" (`none`, the
nil pointer). -/
def ClientStore.Get (s : ClientStore) (id : String) : Option Client :=
  s.clients.find? (fun c => c.Id == id)

/-- Modelled from the spec: `Remove(id)` evicts a client. -/
def ClientStore.Remove (s : ClientStore) (id : String) : ClientStore :=
  ⟨s.clients.filter (fun c => c.Id != id)⟩

/-- Modelled from the spec: `Exists(id)`, boolean lookup. -/
def ClientStore.Exists (s : ClientStore) (id : String) : Bool :=
  s.clients.any (fun c => c.Id == id)

/-- A call that leaves the code at hand: a mutating call on the channel store
(`Subscribe`, `Unsubscribe`, `OnMessage`, `UnsubscribeAll`), an invocation of the
configured error handler, or the removal of a client from the registry.  A client
argument is the pointer that is passed, `none` being nil. -/
inductive Event where
  | Subscribe (client : Option Client) (channelPath : String)
  | Unsubscribe (clientId : String) (channelPath : String)
  | OnMessage (client : Option Client) (msg : Message)
  | UnsubscribeAll (clientId : String)
  | ErrorHandler (err : Error)
  | Remove (clientId : String)

/-- Whether an event is a call of the channel store's `UnsubscribeAll`. -/
def Event.isUnsubscribeAll : Event → Bool
  | .UnsubscribeAll _ => true
  | _ => false

/-- Whether an event is a call of the channel store (any of its four mutators). -/
def Event.isStoreCall : Event → Bool
  | .Subscribe _ _ => true
  | .Unsubscribe _ _ => true
  | .OnMessage _ _ => true
  | .UnsubscribeAll _ => true
  | _ => false

/-- Whether an event is an invocation of the error handler. -/
def Event.isErrorHandler : Event → Bool
  | .ErrorHandler _ => true
  | _ => false

/-- The mutable state the connector and the handlers act on: the client registry
(`connector.clients`) and the trace of calls made so far, oldest first. -/
structure World where
  clients : ClientStore
  trace : List Event

/-- Append one event to the trace. -/
def World.record (w : World) (e : Event) : World :=
  { w with trace := w.trace ++ [e] }

/-- A Go run-time panic. -/
inductive Fault where
  | nilDereference
  deriving DecidableEq, Repr

/-- The type of `Hooks.OnConnect`. -/
abbrev ConnectHookFunc := Option Client → World → Except Fault World

/-- The type of `Hooks.OnDisconnect`. -/
abbrev DisconnectHookFunc := Option Client → World → Except Fault World

/-- The type of `Hooks.OnMessage`. -/
abbrev MessageHookFunc := Option Client → Bytes → World → Except Fault World

/-- The record `Hooks`; `none` is a nil function value. -/
structure Hooks where
  OnConnect : Option ConnectHookFunc
  OnDisconnect : Option DisconnectHookFunc
  OnMessage : Option MessageHookFunc

/-- The immutable part of `Connector`: whether `errorHandler` is non-nil (the handler
itself is user code, its invocation is recorded as `Event.ErrorHandler`) and the
hooks.  The mutable part, `clients`, is `World.clients`. -/
structure Connector where
  errorHandler : Bool
  hooks : Hooks

/-- `NewConnector(requestHandler, errorHandler)`: the hooks start out empty. -/
def NewConnector (errorHandler : Bool) : Connector :=
  { errorHandler := errorHandler, hooks := ⟨none, none, none⟩ }

/-- `Connector.error(err)`: calls the error handler if there is one. -/
def Connector.error (c : Connector) (err : Error) (w : World) : World :=
  if c.errorHandler then w.record (.ErrorHandler err) else w

/-- `Connector.hook(hooks)`. -/
def Connector.hook (c : Connector) (hooks : Hooks) : Connector :=
  { c with hooks := hooks }

/-- `Connector.Message(clientId, data)`. -/
def Connector.Message (c : Connector) (clientId : String) (data : Bytes) (w : World) :
    Except Fault World :=
  let client := w.clients.Get clientId
  match c.hooks.OnMessage with
  | some h => h client data w
  | none => .ok w

/-- `Connector.Leave(clientId)`: the disconnect hook, then `clients.Remove(client.Id)`,
which dereferences `client`. -/
def Connector.Leave (c : Connector) (clientId : String) (w : World) : Except Fault World :=
  let client := w.clients.Get clientId
  let hooked : Except Fault World :=
    match c.hooks.OnDisconnect with
    | some h => h client w
    | none => .ok w
  match hooked with
  | .error f => .error f
  | .ok w1 =>
    match client with
    | none => .error .nilDereference
    | some cl => .ok { clients := w1.clients.Remove cl.Id, trace := w1.trace ++ [.Remove cl.Id] }

/-! ## The tube system -/

/-- The struct `TubeSystem`: the connector and the channel store. -/
structure TubeSystem (Chan Ctx : Type) where
  connector : Connector
  channels : ChannelStore Chan Ctx

/-- `TubeSystem.IsConnected(clientId)`. -/
def TubeSystem.IsConnected {Chan Ctx : Type} (_r : TubeSystem Chan Ctx) (clientId : String)
    (w : World) : Bool :=
  w.clients.Exists clientId

/-- `TubeSystem.connectHandler(client)`: does nothing. -/
def TubeSystem.connectHandler {Chan Ctx : Type} (_r : TubeSystem Chan Ctx)
    (_client : Option Client) (w : World) : Except Fault World :=
  .ok w

/-- `TubeSystem.disconnectHandler(c)`: `r.channels.UnsubscribeAll(c.Id)`, which
dereferences `c`. -/
def TubeSystem.disconnectHandler {Chan Ctx : Type} (_r : TubeSystem Chan Ctx)
    (c : Option Client) (w : World) : Except Fault World :=
  match c with
  | none => .error .nilDereference
  | some cl => .ok (w.record (.UnsubscribeAll cl.Id))

/-- `TubeSystem.messageHandler(c, msg)`; `unmarshal` is `json.Unmarshal` into a
`Message`, from the Go standard library. -/
def TubeSystem.messageHandler {Chan Ctx : Type} (r : TubeSystem Chan Ctx)
    (unmarshal : Bytes → Except String Message)
    (c : Option Client) (msg : Bytes) (w : World) : Except Fault World :=
  match unmarshal msg with
  | .error err =>
    .ok (r.connector.error
      (NewError none .ErrorInvalidMessage "invalid message received" (some err)) w)
  | .ok req =>
    if req.Type_ = MessageTypeSubscribe then
      .ok (w.record (.Subscribe c req.Channel))
    else if req.Type_ = MessageTypeUnsubscribe then
      match c with
      | none => .error .nilDereference
      | some cl => .ok (w.record (.Unsubscribe cl.Id req.Channel))
    else if req.Type_ = MessageTypeChannelMessage then
      .ok (w.record (.OnMessage c req))
    else
      .ok (r.connector.error
        (NewError none .ErrorUnknownType
          ("unknown tubeSystem request type: '" ++ req.Type_ ++ "'") none) w)

/-- `New(connector)`: the tube system whose connector has its three hooks bound to
the system's own handlers.  `channels` is the channel store after `init`. -/
def New {Chan Ctx : Type} (unmarshal : Bytes → Except String Message)
    (channels : ChannelStore Chan Ctx) (connector : Connector) : TubeSystem Chan Ctx :=
  let r : TubeSystem Chan Ctx := { connector := connector, channels := channels }
  { r with
    connector := connector.hook
      { OnConnect := some r.connectHandler
        OnDisconnect := some r.disconnectHandler
        OnMessage := some (r.messageHandler unmarshal) } }

/-- The `for _, match := range matches` loop of `TubeSystem.IsSubscribed`:
returns false at the first match that does not hold the client, true at the end. -/
def TubeSystem.isSubscribedLoop {Chan Ctx : Type} (r : TubeSystem Chan Ctx)
    (channelPath clientId : String) : List (Match Chan) → Bool
  | [] => true
  | m :: rest =>
    if !r.channels.IsSubscribed m.Channel clientId channelPath then false
    else r.isSubscribedLoop channelPath clientId rest

/-- `TubeSystem.IsSubscribed(channelPath, clientId)`. -/
def TubeSystem.IsSubscribed {Chan Ctx : Type} (r : TubeSystem Chan Ctx)
    (channelPath clientId : String) : Bool :=
  let ms := r.channels.Get channelPath
  if ms.length > 0 then r.isSubscribedLoop channelPath clientId ms else false

/-- The state of the delivery loop of `Send`: the `errors` slice and the calls made. -/
structure SendState (Chan Ctx : Type) where
  errors : List Error
  calls : List (Call Chan Ctx)

/-- One iteration of the delivery loop of `TubeSystem.Send`. -/
def TubeSystem.sendStep {Chan Ctx : Type} (r : TubeSystem Chan Ctx)
    (channelPath clientId : String) (payload : Bytes)
    (st : SendState Chan Ctx) (m : Match Chan) : SendState Chan Ctx :=
  let found := r.channels.FindContext m.Channel clientId channelPath
  let context := found.1
  let userSubscribed := found.2
  let calls := st.calls ++ [Call.FindContext m.Channel clientId channelPath]
  let errors :=
    if !userSubscribed then
      st.errors ++ [NewError none .ErrorClientNotSubscribed "user not subscribed to channel" none]
    else st.errors
  let calls := calls ++ [Call.ContextSend context payload]
  match r.channels.ContextSend context payload with
  | some err => ⟨errors ++ [err], calls⟩
  | none => ⟨errors, calls⟩

/-- The delivery loop of `TubeSystem.Send`, over the match list in order. -/
def TubeSystem.sendLoop {Chan Ctx : Type} (r : TubeSystem Chan Ctx)
    (channelPath clientId : String) (payload : Bytes) :
    SendState Chan Ctx → List (Match Chan) → SendState Chan Ctx
  | st, [] => st
  | st, m :: rest =>
    r.sendLoop channelPath clientId payload (r.sendStep channelPath clientId payload st m) rest

/-- `TubeSystem.Send(channelPath, clientId, payload)`: the returned error (`none` is
nil) and the calls made on channels and contexts, in program order. -/
def TubeSystem.Send {Chan Ctx : Type} (r : TubeSystem Chan Ctx)
    (channelPath clientId : String) (payload : Bytes) :
    Option Error × List (Call Chan Ctx) :=
  let ms := r.channels.Get channelPath
  if ms.length = 0 then
    (some (NewError none .ErrorUnknownChannel "channel does not exist" none), [])
  else if !r.IsSubscribed channelPath clientId then
    (some (NewError none .ErrorClientNotSubscribed "user not subscribed to channel" none), [])
  else
    let st := r.sendLoop channelPath clientId payload ⟨[], []⟩ ms
    if st.errors.length > 0 then
      (some (NewMultiError none "Failed to send at least over one channel" none st.errors),
        st.calls)
    else (none, st.calls)

/-! ## What one matching template contributes to a `Send` -/

/-- Whether a matching template fails: `FindContext` reports the client not to be a
member, or delivery through the context returns an error. -/
def TubeSystem.templateFails {Chan Ctx : Type} (r : TubeSystem Chan Ctx)
    (channelPath clientId : String) (payload : Bytes) (m : Match Chan) : Bool :=
  let found := r.channels.FindContext m.Channel clientId channelPath
  !found.2 || (r.channels.ContextSend found.1 payload).isSome

/-- The child errors of one matching template: a `ClientNotSubscribed` error when
`FindContext` reports the client not to be a member, followed by the error of the
delivery through the context when there is one. -/
def TubeSystem.templateErrors {Chan Ctx : Type} (r : TubeSystem Chan Ctx)
    (channelPath clientId : String) (payload : Bytes) (m : Match Chan) : List Error :=
  let found := r.channels.FindContext m.Channel clientId channelPath
  (if found.2 then []
    else [NewError none .ErrorClientNotSubscribed "user not subscribed to channel" none])
  ++ (r.channels.ContextSend found.1 payload).toList

/-- The calls `Send` makes for one matching template: `FindContext`, then the delivery
through the context it returned. -/
def TubeSystem.templateCalls {Chan Ctx : Type} (r : TubeSystem Chan Ctx)
    (channelPath clientId : String) (payload : Bytes) (m : Match Chan) :
    List (Call Chan Ctx) :=
  [Call.FindContext m.Channel clientId channelPath,
   Call.ContextSend (r.channels.FindContext m.Channel clientId channelPath).1 payload]

/-! ## Example stores, connectors and worlds -/

/-- A store with one template, which matches every path; the client passes the
`IsSubscribed` check, `FindContext` then reports it not to be a member (the client
left in between) and the delivery through the context fails as well. -/
def racingStore : ChannelStore Nat Nat where
  Get := fun _ => [⟨0⟩]
  IsSubscribed := fun _ _ _ => true
  FindContext := fun _ _ _ => (0, false)
  ContextSend := fun _ _ => some (.mk .ErrorClientNotSubscribed "client is gone" none [])

/-- A store with two templates, `0` and `1`, that both match every path; every
client is a member of both, delivery succeeds through the context of `0` and fails
through the context of `1`. -/
def twoTemplateStore : ChannelStore Nat Nat where
  Get := fun _ => [⟨0⟩, ⟨1⟩]
  IsSubscribed := fun _ _ _ => true
  FindContext := fun ch _ _ => (ch, true)
  ContextSend := fun ctx _ =>
    if ctx = 1 then some (.mk .ErrorClientNotSubscribed "write failed" none []) else none

/-- A store with two templates that both match every path; the client `"c1"` is a
member of template `0` only. -/
def halfSubscribedStore : ChannelStore Nat Nat where
  Get := fun _ => [⟨0⟩, ⟨1⟩]
  IsSubscribed := fun ch clientId _ => ch = 0 && clientId = "c1"
  FindContext := fun ch clientId _ => (ch, ch = 0 && clientId = "c1")
  ContextSend := fun _ _ => none

/-- A store without any template. -/
def emptyStore : ChannelStore Nat Nat where
  Get := fun _ => []
  IsSubscribed := fun _ _ _ => false
  FindContext := fun ch _ _ => (ch, false)
  ContextSend := fun _ _ => none

/-- A connector with an error handler and no hooks yet. -/
def plainConnector : Connector := NewConnector true

/-- A decoder that yields the envelope `m` for every input. -/
def unmarshalTo (m : Message) : Bytes → Except String Message :=
  fun _ => .ok m

/-- A world with the single client `"c1"` registered and an empty trace. -/
def oneClientWorld : World :=
  { clients := ⟨[⟨"c1"⟩]⟩, trace := [] }

/-! ## Lemmas on the two loops -/

section Loops

variable {Chan Ctx : Type} (r : TubeSystem Chan Ctx) (channelPath clientId : String)
  (payload : Bytes)

theorem isSubscribedLoop_eq_true (ms : List (Match Chan)) :
    r.isSubscribedLoop channelPath clientId ms = true ↔
      ∀ m ∈ ms, r.channels.IsSubscribed m.Channel clientId channelPath = true := by
  induction ms with
  | nil => simp [TubeSystem.isSubscribedLoop]
  | cons m rest ih =>
    cases h : r.channels.IsSubscribed m.Channel clientId channelPath <;>
      simp [TubeSystem.isSubscribedLoop, h, ih]

theorem isSubscribed_eq_true :
    r.IsSubscribed channelPath clientId = true ↔
      r.channels.Get channelPath ≠ [] ∧
      ∀ m ∈ r.channels.Get channelPath,
        r.channels.IsSubscribed m.Channel clientId channelPath = true := by
  unfold TubeSystem.IsSubscribed
  cases hms : r.channels.Get channelPath with
  | nil => simp
  | cons m rest =>
    simp only [List.length_cons, gt_iff_lt, Nat.zero_lt_succ, if_true, ne_eq,
      reduceCtorEq, not_false_eq_true, true_and]
    exact isSubscribedLoop_eq_true r channelPath clientId (m :: rest)

theorem sendStep_errors (st : SendState Chan Ctx) (m : Match Chan) :
    (r.sendStep channelPath clientId payload st m).errors =
      st.errors ++ r.templateErrors channelPath clientId payload m := by
  unfold TubeSystem.sendStep TubeSystem.templateErrors
  cases h2 : (r.channels.FindContext m.Channel clientId channelPath).2 <;>
    cases hs : r.channels.ContextSend
      (r.channels.FindContext m.Channel clientId channelPath).1 payload <;>
    simp [h2, hs]

theorem sendStep_calls (st : SendState Chan Ctx) (m : Match Chan) :
    (r.sendStep channelPath clientId payload st m).calls =
      st.calls ++ r.templateCalls channelPath clientId payload m := by
  unfold TubeSystem.sendStep TubeSystem.templateCalls
  cases hs : r.channels.ContextSend
      (r.channels.FindContext m.Channel clientId channelPath).1 payload <;>
    simp [hs]

theorem sendLoop_errors (ms : List (Match Chan)) (st : SendState Chan Ctx) :
    (r.sendLoop channelPath clientId payload st ms).errors =
      st.errors ++ ms.flatMap (r.templateErrors channelPath clientId payload) := by
  induction ms generalizing st with
  | nil => simp [TubeSystem.sendLoop]
  | cons m rest ih =>
    simp [TubeSystem.sendLoop, ih, sendStep_errors, List.flatMap_cons, List.append_assoc]

theorem sendLoop_calls (ms : List (Match Chan)) (st : SendState Chan Ctx) :
    (r.sendLoop channelPath clientId payload st ms).calls =
      st.calls ++ ms.flatMap (r.templateCalls channelPath clientId payload) := by
  induction ms generalizing st with
  | nil => simp [TubeSystem.sendLoop]
  | cons m rest ih =>
    simp [TubeSystem.sendLoop, ih, sendStep_calls, List.flatMap_cons, List.append_assoc]

theorem templateErrors_eq_nil (m : Match Chan) :
    r.templateErrors channelPath clientId payload m = [] ↔
      r.templateFails channelPath clientId payload m = false := by
  unfold TubeSystem.templateErrors TubeSystem.templateFails
  cases h2 : (r.channels.FindContext m.Channel clientId channelPath).2 <;>
    cases hs : r.channels.ContextSend
      (r.channels.FindContext m.Channel clientId channelPath).1 payload <;>
    simp [h2, hs]

theorem templateErrors_length_le (m : Match Chan) :
    (r.templateErrors channelPath clientId payload m).length ≤ 2 := by
  unfold TubeSystem.templateErrors
  cases h2 : (r.channels.FindContext m.Channel clientId channelPath).2 <;>
    cases hs : r.channels.ContextSend
      (r.channels.FindContext m.Channel clientId channelPath).1 payload <;>
    simp [h2, hs]

/-- The three outcomes of `Send`, by the two checks and the collected errors. -/
theorem send_eq :
    r.Send channelPath clientId payload =
      if (r.channels.Get channelPath).length = 0 then
        (some (NewError none .ErrorUnknownChannel "channel does not exist" none), [])
      else if r.IsSubscribed channelPath clientId = false then
        (some (NewError none .ErrorClientNotSubscribed "user not subscribed to channel" none),
          [])
      else
        let errors :=
          (r.channels.Get channelPath).flatMap (r.templateErrors channelPath clientId payload)
        let calls :=
          (r.channels.Get channelPath).flatMap (r.templateCalls channelPath clientId payload)
        if errors.length = 0 then (none, calls)
        else
          (some (NewMultiError none "Failed to send at least over one channel" none errors),
            calls) := by
  unfold TubeSystem.Send
  simp only [sendLoop_errors, sendLoop_calls, List.nil_append]
  split_ifs <;> simp_all

theorem flatMap_templateErrors_eq_nil (ms : List (Match Chan)) :
    ms.flatMap (r.templateErrors channelPath clientId payload) = [] ↔
      ∀ m ∈ ms,
        (r.channels.FindContext m.Channel clientId channelPath).2 = true ∧
        r.channels.ContextSend
          (r.channels.FindContext m.Channel clientId channelPath).1 payload = none := by
  rw [List.flatMap_eq_nil_iff]
  refine forall_congr' fun m => imp_congr_right fun _ => ?_
  unfold TubeSystem.templateErrors
  cases h2 : (r.channels.FindContext m.Channel clientId channelPath).2 <;>
    cases hs : r.channels.ContextSend
      (r.channels.FindContext m.Channel clientId channelPath).1 payload <;>
    simp [h2, hs]

theorem templateErrors_count_bounds (ms : List (Match Chan)) :
    (ms.filter (r.templateFails channelPath clientId payload)).length ≤
        (ms.flatMap (r.templateErrors channelPath clientId payload)).length ∧
      (ms.flatMap (r.templateErrors channelPath clientId payload)).length ≤
        2 * (ms.filter (r.templateFails channelPath clientId payload)).length := by
  induction ms with
  | nil => simp
  | cons m rest ih =>
    have hle := templateErrors_length_le r channelPath clientId payload m
    cases hf : r.templateFails channelPath clientId payload m with
    | false =>
      have hnil := (templateErrors_eq_nil r channelPath clientId payload m).2 hf
      simp only [List.flatMap_cons, hnil, List.nil_append, List.filter_cons, hf]
      simpa using ih
    | true =>
      have hne : r.templateErrors channelPath clientId payload m ≠ [] := by
        intro hnil
        have := (templateErrors_eq_nil r channelPath clientId payload m).1 hnil
        simp [hf] at this
      have hpos : 1 ≤ (r.templateErrors channelPath clientId payload m).length :=
        List.length_pos.2 hne
      simp only [List.flatMap_cons, List.length_append, List.filter_cons, hf, if_true,
        List.length_cons]
      omega

theorem filter_isContextSend_templateCalls (ms : List (Match Chan)) :
    (ms.flatMap (r.templateCalls channelPath clientId payload)).filter Call.isContextSend =
      ms.map (fun m =>
        Call.ContextSend (r.channels.FindContext m.Channel clientId channelPath).1 payload) := by
  induction ms with
  | nil => simp
  | cons m rest ih =>
    simp [List.flatMap_cons, TubeSystem.templateCalls, Call.isContextSend, ih]

end Loops

/-! ## `TubeSystem.IsSubscribed` and `TubeSystem.Send` -/

/-- C1: `Send` returns nil exactly when the match list is non-empty, the client is
subscribed under every matching channel, and for every matching channel
`FindContext` reports the client as a member and the delivery through the context
returns no error; in every other case it returns an error. -/
theorem send_nil_iff {Chan Ctx : Type} (r : TubeSystem Chan Ctx)
    (channelPath clientId : String) (payload : Bytes) :
    ((r.Send channelPath clientId payload).1 = none ↔
      r.channels.Get channelPath ≠ [] ∧
      (∀ m ∈ r.channels.Get channelPath,
        r.channels.IsSubscribed m.Channel clientId channelPath = true) ∧
      (∀ m ∈ r.channels.Get channelPath,
        (r.channels.FindContext m.Channel clientId channelPath).2 = true ∧
        r.channels.ContextSend
          (r.channels.FindContext m.Channel clientId channelPath).1 payload = none)) ∧
    ((r.Send channelPath clientId payload).1 = none ∨
      ∃ e, (r.Send channelPath clientId payload).1 = some e) := by
  refine ⟨?_, ?_⟩
  · rw [send_eq]
    have hsub := isSubscribed_eq_true r channelPath clientId
    have hnil := flatMap_templateErrors_eq_nil r channelPath clientId payload
      (r.channels.Get channelPath)
    by_cases h0 : (r.channels.Get channelPath).length = 0
    · have : r.channels.Get channelPath = [] := List.length_eq_zero.1 h0
      simp [this]
    · have hne : r.channels.Get channelPath ≠ [] := fun h => h0 (by simp [h])
      cases hs : r.IsSubscribed channelPath clientId with
      | false =>
        have : ¬ ∀ m ∈ r.channels.Get channelPath,
            r.channels.IsSubscribed m.Channel clientId channelPath = true := by
          intro hall
          have := hsub.2 ⟨hne, hall⟩
          simp [hs] at this
        simp only [h0, if_false, if_true]
        constructor
        · intro h; cases h
        · intro h; exact absurd h.2.1 this
      | true =>
        have hall := (hsub.1 hs).2
        simp only [h0, if_false, Bool.true_eq_false]
        by_cases he : ((r.channels.Get channelPath).flatMap
            (r.templateErrors channelPath clientId payload)).length = 0
        · have he2 := List.length_eq_zero.1 he
          simp only [he, if_true, true_iff]
          exact ⟨hne, hall, hnil.1 he2⟩
        · simp only [he, if_false]
          constructor
          · intro h; cases h
          · intro h
            exact absurd (by rw [hnil.2 h.2.2]; rfl) he
  · cases h : (r.Send channelPath clientId payload).1 with
    | none => exact Or.inl rfl
    | some e => exact Or.inr ⟨e, rfl⟩

/-- C2: when the match list is non-empty and some matching channel does not hold the
client, `Send` returns a single `ErrorClientNotSubscribed` error (no children) and
makes no call at all on a channel or a context: neither `FindContext` nor a
delivery. -/
theorem send_not_subscribed {Chan Ctx : Type} (r : TubeSystem Chan Ctx)
    (channelPath clientId : String) (payload : Bytes)
    (hne : r.channels.Get channelPath ≠ [])
    (hex : ∃ m ∈ r.channels.Get channelPath,
      r.channels.IsSubscribed m.Channel clientId channelPath = false) :
    ∃ e, (r.Send channelPath clientId payload).1 = some e ∧
      e.kind = .ErrorClientNotSubscribed ∧ e.children = [] ∧
      (r.Send channelPath clientId payload).2 = [] := by
  have hs : r.IsSubscribed channelPath clientId = false := by
    cases h : r.IsSubscribed channelPath clientId with
    | false => rfl
    | true =>
      obtain ⟨m, hm, hfalse⟩ := hex
      have := ((isSubscribed_eq_true r channelPath clientId).1 h).2 m hm
      simp [hfalse] at this
  have h0 : ¬ (r.channels.Get channelPath).length = 0 := fun h =>
    hne (List.length_eq_zero.1 h)
  rw [send_eq, if_neg h0, if_pos hs]
  exact ⟨_, rfl, rfl, rfl, rfl⟩

/-- Witness of C2: two templates match, `"c2"` is a member of neither. -/
theorem send_not_subscribed_witness :
    (halfSubscribedStore.Get "room/42" ≠ [] ∧
      ∃ m ∈ halfSubscribedStore.Get "room/42",
        halfSubscribedStore.IsSubscribed m.Channel "c2" "room/42" = false) ∧
    ∃ e, ((⟨plainConnector, halfSubscribedStore⟩ : TubeSystem Nat Nat).Send
        "room/42" "c2" [1, 2]).1 = some e ∧
      e.kind = .ErrorClientNotSubscribed ∧ e.children = [] ∧
      ((⟨plainConnector, halfSubscribedStore⟩ : TubeSystem Nat Nat).Send
        "room/42" "c2" [1, 2]).2 = [] :=
  ⟨⟨by simp [halfSubscribedStore], ⟨0⟩, by simp [halfSubscribedStore],
      by simp [halfSubscribedStore]⟩,
    send_not_subscribed ⟨plainConnector, halfSubscribedStore⟩ "room/42" "c2" [1, 2]
      (by simp [halfSubscribedStore])
      ⟨⟨0⟩, by simp [halfSubscribedStore], by simp [halfSubscribedStore]⟩⟩

/-- C3 as stated fails: one template matches, the client passes the subscription
check, `FindContext` then reports it not to be a member and the delivery fails too;
the aggregate has two child errors for the one failing template. -/
theorem send_aggregate_two_children_one_template :
    ∃ e, ((⟨plainConnector, racingStore⟩ : TubeSystem Nat Nat).Send "room/42" "c1" [7]).1
        = some e ∧
      e.kind = .ErrorMulti ∧ e.children.length = 2 ∧
      ((racingStore.Get "room/42").filter
        ((⟨plainConnector, racingStore⟩ : TubeSystem Nat Nat).templateFails
          "room/42" "c1" [7])).length = 1 :=
  ⟨_, rfl, rfl, rfl, rfl⟩

/-- C3, amended: the children of an aggregate returned by `Send` are, in match order,
the failures of each matching template: a `ClientNotSubscribed` error when
`FindContext` reports the client not to be a member, then the error of the delivery
when it failed.  A template that succeeded contributes none, a failing template one
or two, so the number of children lies between the number of failing templates and
twice that number. -/
theorem send_aggregate_children {Chan Ctx : Type} (r : TubeSystem Chan Ctx)
    (channelPath clientId : String) (payload : Bytes) (e : Error)
    (hsend : (r.Send channelPath clientId payload).1 = some e)
    (hagg : e.kind = .ErrorMulti) :
    e.children =
        (r.channels.Get channelPath).flatMap (r.templateErrors channelPath clientId payload) ∧
      (∀ m, r.templateFails channelPath clientId payload m = false ↔
        r.templateErrors channelPath clientId payload m = []) ∧
      (∀ m, (r.templateErrors channelPath clientId payload m).length ≤ 2) ∧
      ((r.channels.Get channelPath).filter
          (r.templateFails channelPath clientId payload)).length ≤ e.children.length ∧
      e.children.length ≤
        2 * ((r.channels.Get channelPath).filter
          (r.templateFails channelPath clientId payload)).length := by
  have hb := templateErrors_count_bounds r channelPath clientId payload
    (r.channels.Get channelPath)
  have hchildren : e.children =
      (r.channels.Get channelPath).flatMap
        (r.templateErrors channelPath clientId payload) := by
    rw [send_eq] at hsend
    by_cases h0 : (r.channels.Get channelPath).length = 0
    · rw [if_pos h0] at hsend
      cases hsend; cases hagg
    · rw [if_neg h0] at hsend
      by_cases hs : r.IsSubscribed channelPath clientId = false
      · rw [if_pos hs] at hsend
        cases hsend; cases hagg
      · rw [if_neg hs] at hsend
        by_cases he : ((r.channels.Get channelPath).flatMap
            (r.templateErrors channelPath clientId payload)).length = 0
        · simp only [he, if_true] at hsend
          cases hsend
        · simp only [he, if_false] at hsend
          cases hsend; rfl
  refine ⟨hchildren, fun m => (templateErrors_eq_nil r channelPath clientId payload m).symm,
    templateErrors_length_le r channelPath clientId payload, ?_, ?_⟩
  · rw [hchildren]; exact hb.1
  · rw [hchildren]; exact hb.2

/-- Witness of C3, amended: two templates match, the delivery through the second
fails; the aggregate has that one child. -/
theorem send_aggregate_children_witness :
    ∃ e, ((⟨plainConnector, twoTemplateStore⟩ : TubeSystem Nat Nat).Send
        "room/42" "c1" [7]).1 = some e ∧ e.kind = .ErrorMulti ∧
      e.children = (twoTemplateStore.Get "room/42").flatMap
        ((⟨plainConnector, twoTemplateStore⟩ : TubeSystem Nat Nat).templateErrors
          "room/42" "c1" [7]) ∧
      e.children.length = 1 :=
  ⟨_, rfl, rfl,
    (send_aggregate_children ⟨plainConnector, twoTemplateStore⟩ "room/42" "c1" [7] _
      rfl rfl).1, rfl⟩

/-- C4: `TubeSystem.IsSubscribed` is true exactly when `channels.Get` returns a
non-empty list and every match in it holds the client. -/
theorem isSubscribed_iff {Chan Ctx : Type} (r : TubeSystem Chan Ctx)
    (channelPath clientId : String) :
    r.IsSubscribed channelPath clientId = true ↔
      r.channels.Get channelPath ≠ [] ∧
      ∀ m ∈ r.channels.Get channelPath,
        r.channels.IsSubscribed m.Channel clientId channelPath = true :=
  isSubscribed_eq_true r channelPath clientId

/-- C5: when no template matches, `Send` returns an `ErrorUnknownChannel` error, a
single one, and makes no call on a channel or a context. -/
theorem send_unknown_channel {Chan Ctx : Type} (r : TubeSystem Chan Ctx)
    (channelPath clientId : String) (payload : Bytes)
    (hnone : r.channels.Get channelPath = []) :
    ∃ e, (r.Send channelPath clientId payload).1 = some e ∧
      e.kind = .ErrorUnknownChannel ∧ e.kind ≠ .ErrorClientNotSubscribed ∧
      e.kind ≠ .ErrorMulti ∧ e.children = [] ∧
      (r.Send channelPath clientId payload).2 = [] := by
  have h0 : (r.channels.Get channelPath).length = 0 := by rw [hnone]; rfl
  rw [send_eq, if_pos h0]
  exact ⟨_, rfl, rfl, by decide, by decide, rfl, rfl⟩

/-- Witness of C5: a store without templates, a client that does not exist. -/
theorem send_unknown_channel_witness :
    emptyStore.Get "room/42" = [] ∧
    ∃ e, ((⟨plainConnector, emptyStore⟩ : TubeSystem Nat Nat).Send "room/42" "ghost" [1]).1
        = some e ∧
      e.kind = .ErrorUnknownChannel ∧ e.kind ≠ .ErrorClientNotSubscribed ∧
      e.kind ≠ .ErrorMulti ∧ e.children = [] ∧
      ((⟨plainConnector, emptyStore⟩ : TubeSystem Nat Nat).Send "room/42" "ghost" [1]).2
        = [] :=
  ⟨rfl, send_unknown_channel ⟨plainConnector, emptyStore⟩ "room/42" "ghost" [1] rfl⟩

/-- C6: once the unknown-channel and the subscription check are passed, `Send` calls,
for each match in order, `FindContext` and then the delivery through the context it
returned; the deliveries are one per match, in match order, whatever their results. -/
theorem send_attempts_each_match_once {Chan Ctx : Type} (r : TubeSystem Chan Ctx)
    (channelPath clientId : String) (payload : Bytes)
    (hne : r.channels.Get channelPath ≠ [])
    (hsub : r.IsSubscribed channelPath clientId = true) :
    (r.Send channelPath clientId payload).2 =
        (r.channels.Get channelPath).flatMap
          (r.templateCalls channelPath clientId payload) ∧
      (r.Send channelPath clientId payload).2.filter Call.isContextSend =
        (r.channels.Get channelPath).map (fun m =>
          Call.ContextSend
            (r.channels.FindContext m.Channel clientId channelPath).1 payload) ∧
      ((r.Send channelPath clientId payload).2.filter Call.isContextSend).length =
        (r.channels.Get channelPath).length := by
  have h0 : ¬ (r.channels.Get channelPath).length = 0 := fun h =>
    hne (List.length_eq_zero.1 h)
  have hcalls : (r.Send channelPath clientId payload).2 =
      (r.channels.Get channelPath).flatMap
        (r.templateCalls channelPath clientId payload) := by
    rw [send_eq]
    simp only [h0, hsub, if_false, Bool.true_eq_false]
    split_ifs <;> rfl
  refine ⟨hcalls, ?_, ?_⟩
  · rw [hcalls, filter_isContextSend_templateCalls]
  · rw [hcalls, filter_isContextSend_templateCalls, List.length_map]

/-- Witness of C6: two templates match, the second delivery fails, `Send` returns an
aggregate and has attempted both deliveries. -/
theorem send_attempts_each_match_once_witness :
    (twoTemplateStore.Get "room/42" ≠ [] ∧
      (⟨plainConnector, twoTemplateStore⟩ : TubeSystem Nat Nat).IsSubscribed
        "room/42" "c1" = true) ∧
    ((⟨plainConnector, twoTemplateStore⟩ : TubeSystem Nat Nat).Send "room/42" "c1" [7]).2 =
      [Call.FindContext 0 "c1" "room/42", Call.ContextSend 0 [7],
        Call.FindContext 1 "c1" "room/42", Call.ContextSend 1 [7]] :=
  ⟨⟨by simp [twoTemplateStore], rfl⟩,
    (send_attempts_each_match_once ⟨plainConnector, twoTemplateStore⟩ "room/42" "c1" [7]
      (by simp [twoTemplateStore]) rfl).1.trans rfl⟩

/-! ## The handlers and the connector -/

theorem clientStore_get_id (s : ClientStore) (id : String) (cl : Client)
    (h : s.Get id = some cl) : cl.Id = id := by
  unfold ClientStore.Get at h
  have := List.find?_some h
  simpa using this

theorem clientStore_get_of_exists (s : ClientStore) (id : String)
    (h : s.Exists id = true) : ∃ cl, s.Get id = some cl ∧ cl.Id = id := by
  unfold ClientStore.Exists at h
  cases hg : s.Get id with
  | none =>
    unfold ClientStore.Get at hg
    rw [List.find?_eq_none] at hg
    rw [List.any_eq_true] at h
    obtain ⟨c, hc, hid⟩ := h
    exact absurd hid (hg c hc)
  | some cl => exact ⟨cl, rfl, clientStore_get_id s id cl hg⟩

theorem clientStore_exists_remove (s : ClientStore) (id : String) :
    (s.Remove id).Exists id = false := by
  simp [ClientStore.Remove, ClientStore.Exists, List.any_filter]

/-- C7: for a parsed envelope whose type is none of `"subscribe"`, `"unsubscribe"`,
`"message"`, `messageHandler` returns normally, leaves the client registry as it
was and adds exactly one call to the trace: the configured error handler, with an
error of kind `ErrorUnknownType`; the channel store is not called. -/
theorem messageHandler_unknown_type {Chan Ctx : Type} (r : TubeSystem Chan Ctx)
    (unmarshal : Bytes → Except String Message) (c : Option Client) (msg : Bytes)
    (w : World) (req : Message)
    (hparse : unmarshal msg = .ok req)
    (h1 : req.Type_ ≠ "subscribe") (h2 : req.Type_ ≠ "unsubscribe")
    (h3 : req.Type_ ≠ "message")
    (hcfg : r.connector.errorHandler = true) :
    ∃ w' e, r.messageHandler unmarshal c msg w = .ok w' ∧
      w'.clients = w.clients ∧
      w'.trace = w.trace ++ [Event.ErrorHandler e] ∧
      e.kind = .ErrorUnknownType ∧
      ([Event.ErrorHandler e].filter Event.isStoreCall).length = 0 ∧
      ([Event.ErrorHandler e].filter Event.isErrorHandler).length = 1 := by
  refine ⟨w.record (.ErrorHandler (NewError none .ErrorUnknownType
      ("unknown tubeSystem request type: '" ++ req.Type_ ++ "'") none)),
    NewError none .ErrorUnknownType
      ("unknown tubeSystem request type: '" ++ req.Type_ ++ "'") none,
    ?_, rfl, rfl, rfl, rfl, rfl⟩
  unfold TubeSystem.messageHandler
  rw [hparse]
  simp only [MessageTypeSubscribe, MessageTypeUnsubscribe, MessageTypeChannelMessage,
    h1, h2, h3, if_false, Connector.error, hcfg, if_true]

/-- Witness of C7: the envelope `{type: "Subscribe"}`, differently cased. -/
theorem messageHandler_unknown_type_witness :
    ∃ w' e,
      (New (unmarshalTo ⟨"Subscribe", "room/42", []⟩) emptyStore
          plainConnector).messageHandler
        (unmarshalTo ⟨"Subscribe", "room/42", []⟩) (some ⟨"c1"⟩) [] oneClientWorld = .ok w' ∧
      w'.clients = oneClientWorld.clients ∧
      w'.trace = oneClientWorld.trace ++ [Event.ErrorHandler e] ∧
      e.kind = .ErrorUnknownType ∧
      ([Event.ErrorHandler e].filter Event.isStoreCall).length = 0 ∧
      ([Event.ErrorHandler e].filter Event.isErrorHandler).length = 1 :=
  messageHandler_unknown_type
    (New (unmarshalTo ⟨"Subscribe", "room/42", []⟩) emptyStore plainConnector)
    (unmarshalTo ⟨"Subscribe", "room/42", []⟩) (some ⟨"c1"⟩) [] oneClientWorld
    ⟨"Subscribe", "room/42", []⟩ rfl (by decide) (by decide) (by decide) rfl

/-- C8 as stated fails: with the nil client (the one `Connector.Message` passes for an
id that is not registered) a parsed `"unsubscribe"` envelope makes `messageHandler`
dereference nil at `c.Id`; no channel store call is made. -/
theorem messageHandler_unsubscribe_nil_client_fault :
    unmarshalTo ⟨"unsubscribe", "room/42", []⟩ [] = .ok ⟨"unsubscribe", "room/42", []⟩ ∧
    (New (unmarshalTo ⟨"unsubscribe", "room/42", []⟩) emptyStore
        plainConnector).messageHandler
      (unmarshalTo ⟨"unsubscribe", "room/42", []⟩) none [] oneClientWorld
      = .error .nilDereference :=
  ⟨rfl, rfl⟩

/-- C8, amended: for a parsed envelope of type `"subscribe"`, `"unsubscribe"` or
`"message"`, and a client pointer that is not nil when the type is `"unsubscribe"`,
`messageHandler` returns normally, leaves the registry as it was and adds exactly
one call to the trace, a call of the channel store and not of the error handler:
`Subscribe(c, channel)`, `Unsubscribe(c.Id, channel)` or `OnMessage(c, envelope)`;
this for every store, so whether or not the client is subscribed to the channel. -/
theorem messageHandler_dispatch {Chan Ctx : Type} (r : TubeSystem Chan Ctx)
    (unmarshal : Bytes → Except String Message) (c : Option Client) (msg : Bytes)
    (w : World) (req : Message)
    (hparse : unmarshal msg = .ok req)
    (htype : req.Type_ = "subscribe" ∨ req.Type_ = "unsubscribe" ∨ req.Type_ = "message")
    (hclient : req.Type_ = "unsubscribe" → c ≠ none) :
    ∃ ev, r.messageHandler unmarshal c msg w =
        .ok { clients := w.clients, trace := w.trace ++ [ev] } ∧
      ev.isStoreCall = true ∧ ev.isErrorHandler = false ∧
      (req.Type_ = "subscribe" → ev = Event.Subscribe c req.Channel) ∧
      (req.Type_ = "unsubscribe" →
        ∀ cl, c = some cl → ev = Event.Unsubscribe cl.Id req.Channel) ∧
      (req.Type_ = "message" → ev = Event.OnMessage c req) := by
  unfold TubeSystem.messageHandler
  rw [hparse]
  rcases htype with h | h | h
  · refine ⟨Event.Subscribe c req.Channel, ?_, rfl, rfl, fun _ => rfl, ?_, ?_⟩
    · simp [h, MessageTypeSubscribe, World.record]
    · intro h'; rw [h] at h'; exact absurd h' (by decide)
    · intro h'; rw [h] at h'; exact absurd h' (by decide)
  · cases c with
    | none => exact absurd rfl (hclient h)
    | some cl0 =>
      refine ⟨Event.Unsubscribe cl0.Id req.Channel, ?_, rfl, rfl, ?_, ?_, ?_⟩
      · simp [h, MessageTypeSubscribe, MessageTypeUnsubscribe, World.record]
      · intro h'; rw [h] at h'; exact absurd h' (by decide)
      · intro _ cl hcl
        cases hcl; rfl
      · intro h'; rw [h] at h'; exact absurd h' (by decide)
  · refine ⟨Event.OnMessage c req, ?_, rfl, rfl, ?_, ?_, fun _ => rfl⟩
    · simp [h, MessageTypeSubscribe, MessageTypeUnsubscribe, MessageTypeChannelMessage,
        World.record]
    · intro h'; rw [h] at h'; exact absurd h' (by decide)
    · intro h'; rw [h] at h'; exact absurd h' (by decide)

/-- Witness of C8, amended: an `"unsubscribe"` envelope from the client `"c1"`, on a
store without any template, so that the client is subscribed nowhere. -/
theorem messageHandler_dispatch_witness :
    (unmarshalTo ⟨"unsubscribe", "room/42", [9]⟩ [] = .ok ⟨"unsubscribe", "room/42", [9]⟩ ∧
      ("unsubscribe" = "subscribe" ∨ "unsubscribe" = "unsubscribe" ∨
        "unsubscribe" = "message") ∧
      ("unsubscribe" = "unsubscribe" → (some (⟨"c1"⟩ : Client)) ≠ none)) ∧
    (New (unmarshalTo ⟨"unsubscribe", "room/42", [9]⟩) emptyStore
      plainConnector).IsSubscribed "room/42" "c1" = false ∧
    ∃ ev,
      (New (unmarshalTo ⟨"unsubscribe", "room/42", [9]⟩) emptyStore
          plainConnector).messageHandler
        (unmarshalTo ⟨"unsubscribe", "room/42", [9]⟩) (some ⟨"c1"⟩) [] oneClientWorld =
        .ok { clients := oneClientWorld.clients, trace := oneClientWorld.trace ++ [ev] } ∧
      ev.isStoreCall = true ∧ ev.isErrorHandler = false ∧
      ("unsubscribe" = "subscribe" → ev = Event.Subscribe (some ⟨"c1"⟩) "room/42") ∧
      ("unsubscribe" = "unsubscribe" →
        ∀ cl, some (⟨"c1"⟩ : Client) = some cl → ev = Event.Unsubscribe cl.Id "room/42") ∧
      ("unsubscribe" = "message" →
        ev = Event.OnMessage (some ⟨"c1"⟩) ⟨"unsubscribe", "room/42", [9]⟩) :=
  ⟨⟨rfl, Or.inr (Or.inl rfl), fun _ => by simp⟩, rfl,
    messageHandler_dispatch
      (New (unmarshalTo ⟨"unsubscribe", "room/42", [9]⟩) emptyStore plainConnector)
      (unmarshalTo ⟨"unsubscribe", "room/42", [9]⟩) (some ⟨"c1"⟩) [] oneClientWorld
      ⟨"unsubscribe", "room/42", [9]⟩ rfl (Or.inr (Or.inl rfl)) (fun _ => by simp)⟩

/-- C9: on a tube system built by `New`, `Leave` of a registered client returns
normally and adds exactly two calls to the trace, in this order: the channel
store's `UnsubscribeAll(clientId)`, then the removal of the client from the
registry; afterwards `IsConnected(clientId)` is false. -/
theorem leave_unsubscribes_then_removes {Chan Ctx : Type}
    (unmarshal : Bytes → Except String Message) (channels : ChannelStore Chan Ctx)
    (connector : Connector) (clientId : String) (w : World)
    (hreg : (New unmarshal channels connector).IsConnected clientId w = true) :
    ∃ w', (New unmarshal channels connector).connector.Leave clientId w = .ok w' ∧
      w'.trace = w.trace ++ [Event.UnsubscribeAll clientId, Event.Remove clientId] ∧
      ((w.trace ++ [Event.UnsubscribeAll clientId, Event.Remove clientId]).filter
          Event.isUnsubscribeAll).length =
        (w.trace.filter Event.isUnsubscribeAll).length + 1 ∧
      w'.clients = w.clients.Remove clientId ∧
      (New unmarshal channels connector).IsConnected clientId w' = false := by
  obtain ⟨cl, hget, hid⟩ := clientStore_get_of_exists w.clients clientId hreg
  refine ⟨{ clients := w.clients.Remove clientId,
            trace := w.trace ++ [Event.UnsubscribeAll clientId, Event.Remove clientId] },
    ?_, rfl, ?_, rfl, ?_⟩
  · simp [Connector.Leave, New, Connector.hook, TubeSystem.disconnectHandler, hget, hid,
      World.record]
  · simp [List.filter_append, Event.isUnsubscribeAll, List.filter_cons]
  · exact clientStore_exists_remove w.clients clientId

/-- Witness of C9: the client `"c1"` of `oneClientWorld` leaves. -/
theorem leave_unsubscribes_then_removes_witness :
    (New (unmarshalTo ⟨"message", "room/42", []⟩) emptyStore plainConnector).IsConnected
      "c1" oneClientWorld = true ∧
    ∃ w', (New (unmarshalTo ⟨"message", "room/42", []⟩) emptyStore
        plainConnector).connector.Leave "c1" oneClientWorld = .ok w' ∧
      w'.trace = oneClientWorld.trace ++ [Event.UnsubscribeAll "c1", Event.Remove "c1"] ∧
      ((oneClientWorld.trace ++ [Event.UnsubscribeAll "c1", Event.Remove "c1"]).filter
          Event.isUnsubscribeAll).length =
        (oneClientWorld.trace.filter Event.isUnsubscribeAll).length + 1 ∧
      w'.clients = oneClientWorld.clients.Remove "c1" ∧
      (New (unmarshalTo ⟨"message", "room/42", []⟩) emptyStore plainConnector).IsConnected
        "c1" w' = false :=
  ⟨by decide,
    leave_unsubscribes_then_removes (unmarshalTo ⟨"message", "room/42", []⟩) emptyStore
      plainConnector "c1" oneClientWorld (by decide)⟩

/-- C10 as stated fails: on a tube system built by `New`, `Leave` of an id that is not
registered dereferences the nil client (in `disconnectHandler`, at `c.Id`), and so
does `Message` of such an id with an `"unsubscribe"` envelope (in `messageHandler`,
at `c.Id`). -/
theorem leave_and_message_unregistered_fault :
    oneClientWorld.clients.Get "ghost" = none ∧
    (New (unmarshalTo ⟨"unsubscribe", "room/42", []⟩) emptyStore
        plainConnector).connector.Leave "ghost" oneClientWorld
      = .error .nilDereference ∧
    (New (unmarshalTo ⟨"unsubscribe", "room/42", []⟩) emptyStore
        plainConnector).connector.Message "ghost" [] oneClientWorld
      = .error .nilDereference :=
  ⟨by decide, rfl, rfl⟩

/-- C10, amended: on a tube system built by `New`, for a client id for which the
registry's `Get` returns a client, `Leave` and `Message` (with any data) return
normally: neither they nor the hooks dereference a nil client. -/
theorem leave_and_message_registered_safe {Chan Ctx : Type}
    (unmarshal : Bytes → Except String Message) (channels : ChannelStore Chan Ctx)
    (connector : Connector) (clientId : String) (w : World) (cl : Client)
    (hget : w.clients.Get clientId = some cl) :
    (∃ w', (New unmarshal channels connector).connector.Leave clientId w = .ok w') ∧
    ∀ data, ∃ w',
      (New unmarshal channels connector).connector.Message clientId data w = .ok w' := by
  refine ⟨?_, fun data => ?_⟩
  · simp [Connector.Leave, New, Connector.hook, TubeSystem.disconnectHandler, hget]
  · simp only [Connector.Message, New, Connector.hook, hget,
      TubeSystem.messageHandler]
    cases unmarshal data with
    | error err => exact ⟨_, rfl⟩
    | ok req =>
      simp only
      split_ifs <;> exact ⟨_, rfl⟩

/-- Witness of C10, amended: the registered client `"c1"` sends an `"unsubscribe"`
envelope and leaves. -/
theorem leave_and_message_registered_safe_witness :
    oneClientWorld.clients.Get "c1" = some ⟨"c1"⟩ ∧
    (∃ w', (New (unmarshalTo ⟨"unsubscribe", "room/42", []⟩) emptyStore
        plainConnector).connector.Leave "c1" oneClientWorld = .ok w') ∧
    ∀ data, ∃ w', (New (unmarshalTo ⟨"unsubscribe", "room/42", []⟩) emptyStore
        plainConnector).connector.Message "c1" data oneClientWorld = .ok w' :=
  ⟨by decide,
    leave_and_message_registered_safe (unmarshalTo ⟨"unsubscribe", "room/42", []⟩)
      emptyStore plainConnector "c1" oneClientWorld ⟨"c1"⟩ (by decide)⟩

end Tubes
